import Mathlib

/-
Verification of the authentication core of the nepse_data_api repository:
the token descrambler (NepseTokenParser.parse_token_response), the
payload-id signer (Nepse._get_floorsheet_payload_id) and the session
credential state machine (authenticate / _get_auth_headers /
refresh_auth_token).  The definitions below are a shallow embedding of the
Python code in src/nepse_data_api/security.py and src/nepse_data_api/market.py
(the two copies of the token parser are line-for-line identical in the parts
modelled here).
-/

namespace Nepse

/-- Value of a JSON field as the Python code can see it: an integer, a
string, Python None, or an array of integers (the shape the refresh endpoint
uses for its salt field). -/
inductive PyVal where
  | int (n : Int)
  | str (s : String)
  | pyNone
  | intList (xs : List Int)
  deriving DecidableEq, Repr

/-- A JSON object body, as the association of its keys to values (keys are
unique in a JSON object; lookup takes the first binding). -/
abbrev Response := List (String × PyVal)

/-- Dictionary lookup, returning the first binding of the key when present. -/
def pyLookup (r : Response) (k : String) : Option PyVal :=
  match r with
  | [] => Option.none
  | (k2, v) :: rest => if k2 = k then some v else pyLookup rest k

/-- The Python exceptions the token parser can observe while extracting the
salts: a missing dictionary key, a ValueError, or a TypeError.  Each
constructor carries exactly the data that str(e) renders for that exception,
so equality of modelled errors coincides with equality of the observable
error text. -/
inductive PyErr where
  | keyError (k : String)
  | valueError (msg : String)
  | typeError (msg : String)
  | indexError (msg : String)
  deriving DecidableEq, Repr

/-- Rendering of str(e) as interpolated into the wrapper message raised by
parse_token_response; str of a KeyError is the quoted key, str of the other
two is their message. -/
def pyStrOfErr : PyErr → String
  | .keyError k => "\x27" ++ k ++ "\x27"
  | .valueError m => m
  | .typeError m => m
  | .indexError m => m

/-- Numeric value of a decimal digit string. -/
def digitsToNat (cs : List Char) : Nat :=
  cs.foldl (fun acc c => acc * 10 + (c.toNat - ('0').toNat)) 0

/-- Python int(s) on a string: surrounding whitespace is stripped, one
optional sign is allowed, then one or more decimal digits must follow
(digit-grouping underscores are not modelled).  Returns Option.none when the
literal is invalid. -/
def pyParseInt (s : String) : Option Int :=
  let cs := ((s.data.dropWhile Char.isWhitespace).reverse.dropWhile
    Char.isWhitespace).reverse
  match cs with
  | [] => Option.none
  | c :: rest =>
    if c = '-' then
      if rest ≠ [] ∧ rest.all Char.isDigit then
        some (-(digitsToNat rest : Int))
      else Option.none
    else if c = '+' then
      if rest ≠ [] ∧ rest.all Char.isDigit then
        some ((digitsToNat rest : Int))
      else Option.none
    else
      if cs.all Char.isDigit then some ((digitsToNat cs : Int))
      else Option.none

/-- Python int(v) coercion of a JSON value.  Integers pass through, strings
are parsed as decimal literals, None and arrays raise TypeError.  The
message payloads follow the CPython texts, which mention the offending
value or type but never the dictionary key the value came from. -/
def pyInt : PyVal → Except PyErr Int
  | .int n => .ok n
  | .str s =>
    match pyParseInt s with
    | some n => .ok n
    | Option.none =>
      .error (.valueError
        ("invalid literal for int() with base 10: \x27" ++ s ++ "\x27"))
  | .pyNone =>
    .error (.typeError
      "int() argument must be a string, a bytes-like object or a real number, not \x27NoneType\x27")
  | .intList _ =>
    .error (.typeError
      "int() argument must be a string, a bytes-like object or a real number, not \x27list\x27")

/-- Evaluation of int(response_data[k]): a missing key raises KeyError
before int is even called, otherwise the coercion runs. -/
def getSaltVal (r : Response) (k : String) : Except PyErr Int :=
  match pyLookup r k with
  | Option.none => .error (.keyError k)
  | some v => pyInt v

/-- The salt-extraction block of parse_token_response: the five int(...)
calls are evaluated in salt1..salt5 order inside one try, so the first
failing field aborts the whole list. -/
def parseSalts (r : Response) : Except PyErr (Int × Int × Int × Int × Int) :=
  match getSaltVal r "salt1" with
  | .error e => .error e
  | .ok s1 =>
    match getSaltVal r "salt2" with
    | .error e => .error e
    | .ok s2 =>
      match getSaltVal r "salt3" with
      | .error e => .error e
      | .ok s3 =>
        match getSaltVal r "salt4" with
        | .error e => .error e
        | .ok s4 =>
          match getSaltVal r "salt5" with
          | .error e => .error e
          | .ok s5 => .ok (s1, s2, s3, s4, s5)

/-- One loaded WASM transform module: the five exported functions, each
taking the argument list handed to runtime.invocate and returning the one
integer the code reads off with [0]. -/
structure Transform where
  cdx : List Int → Int
  rdx : List Int → Int
  bdx : List Int → Int
  ndx : List Int → Int
  mdx : List Int → Int

/-- Normalisation of one Python slice bound against a string of length len:
a negative bound counts from the end and clamps at 0, a non-negative bound
clamps at len. -/
def sliceIdx (len : Nat) (i : Int) : Nat :=
  if i < 0 then ((len : Int) + i).toNat else min i.toNat len

/-- Python s[a:b] on the character list of a string. -/
def pySlice (s : List Char) (a b : Int) : List Char :=
  (s.take (sliceIdx s.length b)).drop (sliceIdx s.length a)

/-- Python s[a:] on the character list of a string. -/
def pySliceFrom (s : List Char) (a : Int) : List Char :=
  s.drop (sliceIdx s.length a)

/-- The six-segment reassembly applied to each scrambled token:
s[0:n] + s[n+1:l] + s[l+1:o] + s[o+1:p] + s[p+1:q] + s[q+1:]. -/
def reassemble (s : List Char) (n l o p q : Int) : List Char :=
  pySlice s 0 n ++ pySlice s (n + 1) l ++ pySlice s (l + 1) o ++
    pySlice s (o + 1) p ++ pySlice s (p + 1) q ++ pySliceFrom s (q + 1)

/-- Extraction of response_data[k] as the token string that is then sliced:
a missing key raises KeyError, and slicing a non-string value would raise a
TypeError. -/
def getTokenStr (r : Response) (k : String) : Except PyErr String :=
  match pyLookup r k with
  | Option.none => .error (.keyError k)
  | some (.str s) => .ok s
  | some _ => .error (.typeError "object is not subscriptable")

/-- NepseTokenParser.parse_token_response: extract the five salts (wrapping
any extraction exception into the ValueError raised by the except block),
compute the ten cut points with the exact argument permutations of the
source (the list literals below transcribe the salts[i] index expressions),
extract the two scrambled strings, and reassemble both tokens. -/
def parse_token_response (t : Transform) (r : Response) :
    Except PyErr (String × String × List Int) :=
  match parseSalts r with
  | .error e =>
    .error (.valueError ("Invalid salt data in response: " ++ pyStrOfErr e))
  | .ok (s1, s2, s3, s4, s5) =>
    let n := t.cdx [s1, s2, s3, s4, s5]
    let l_index := t.rdx [s1, s2, s4, s3, s5]
    let o := t.bdx [s1, s2, s4, s3, s5]
    let p := t.ndx [s1, s2, s4, s3, s5]
    let q := t.mdx [s1, s2, s4, s3, s5]
    let a := t.cdx [s2, s1, s3, s5, s4]
    let b := t.rdx [s2, s1, s3, s4, s5]
    let c := t.bdx [s2, s1, s4, s3, s5]
    let d := t.ndx [s2, s1, s4, s3, s5]
    let e := t.mdx [s2, s1, s4, s3, s5]
    match getTokenStr r "accessToken" with
    | .error err => .error err
    | .ok access_token =>
      match getTokenStr r "refreshToken" with
      | .error err => .error err
      | .ok refresh_token =>
        .ok (String.mk (reassemble access_token.data n l_index o p q),
          String.mk (reassemble refresh_token.data a b c d e),
          [s1, s2, s3, s4, s5])

/-- Mutable credential state of one Nepse session (market.py lines 142-145):
access token, refresh token, salts and issuance timestamp.  Python None is
Option.none; the model types the tokens as strings and the salts as integer
lists, which are the shapes every modelled code path stores. -/
structure SessionState where
  access_token : Option String
  refresh_token : Option String
  salts : Option (List Int)
  token_timestamp : Int
  deriving DecidableEq, Repr

/-- The freshly constructed, never-authenticated credential state. -/
def initialState : SessionState :=
  { access_token := Option.none, refresh_token := Option.none,
    salts := Option.none, token_timestamp := 0 }

/-- Python truthiness of the held access token: None and the empty string
are falsy (the `if not self.access_token` test). -/
def truthyStr : Option String → Bool
  | Option.none => false
  | some s => !s.isEmpty

/-- Python truthiness of the salts field: None and an empty list are falsy
(the `if not self.salts` test). -/
def truthySalts : Option (List Int) → Bool
  | Option.none => false
  | some xs => !xs.isEmpty

/-- External world one session operation runs against: the loaded transform
module, the body served by the authentication endpoint, the body served by
the market-status endpoint, the outcome of a refresh POST (the error case
collects transport failures, non-2xx statuses and undecodable bodies, which
all raise inside the same try), and the clock.  Requests to the prove and
market-status endpoints are modelled as succeeding at transport level, the
regime the claims below quantify over. -/
structure Env where
  transform : Transform
  proveResponse : Response
  marketStatus : Response
  refreshResult : Except Unit Response
  now : Int

/-- Observable effects of a session operation that the claims count. -/
inductive Effect where
  | auth
  | fetchMarketStatus
  | postRefresh
  deriving DecidableEq, Repr

/-- Result of one session operation: the returned value or the propagated
exception, together with the session state at that point. -/
inductive Outcome (α : Type) where
  | ok (value : α) (st : SessionState)
  | err (e : PyErr) (st : SessionState)
  deriving DecidableEq, Repr

/-- State component of an outcome. -/
def Outcome.state : Outcome α → SessionState
  | .ok _ st => st
  | .err _ st => st

/-- Whether the operation raised. -/
def Outcome.isErr : Outcome α → Bool
  | .ok _ _ => false
  | .err _ _ => true

/-- Nepse.authenticate: fetch the prove body, descramble it and replace all
four credential fields at once; when descrambling raises, the exception
propagates and no field has been assigned. -/
def authenticate (env : Env) (st : SessionState) :
    Outcome Unit × List Effect :=
  match parse_token_response env.transform env.proveResponse with
  | .error e => (.err e st, [.auth])
  | .ok (a, r, s) =>
    (.ok () (SessionState.mk (some a) (some r) (some s) env.now), [.auth])

/-- The User-Agent header the session is configured with. -/
def userAgent : String := "Mozilla/5.0 (X11; Linux x86_64) AppleWebKit/537.36"

/-- Rendering of an optional string inside an f-string: Python None prints
as None.  No modelled success path builds headers from None, but the total
model keeps the Python rendering. -/
def pyShowOptStr : Option String → String
  | Option.none => "None"
  | some s => s

/-- Header map built by _get_auth_headers from the current access token. -/
def mkAuthHeaders (tok : Option String) : List (String × String) :=
  [("Authorization", "Salter " ++ pyShowOptStr tok),
   ("Content-Type", "application/json"),
   ("User-Agent", userAgent)]

/-- Nepse._get_auth_headers (identical to MyNepseSession._get_auth_headers
in security.py): when the held access token is falsy the call authenticates
first, then the header map is built from the now-held token. -/
def get_auth_headers (env : Env) (st : SessionState) :
    Outcome (List (String × String)) × List Effect :=
  if truthyStr st.access_token then
    (.ok (mkAuthHeaders st.access_token) st, [])
  else
    match authenticate env st with
    | (.ok () st1, tr) => (.ok (mkAuthHeaders st1.access_token) st1, tr)
    | (.err e st1, tr) => (.err e st1, tr)

/-- Nepse.get_market_status in the cache-free configuration
(enable_cache=False, the configuration the payload-id claims are settled
in): evaluate the auth headers, which may authenticate, then fetch the
market-open body. -/
def get_market_status (env : Env) (st : SessionState) :
    Outcome Response × List Effect :=
  match get_auth_headers env st with
  | (.ok _ st1, tr) => (.ok env.marketStatus st1, tr ++ [.fetchMarketStatus])
  | (.err e st1, tr) => (.err e st1, tr)

/-- The embedded 100-entry dummy-data table of _get_floorsheet_payload_id,
transcribed from market.py lines 856-862. -/
def DUMMY_DATA : List Int :=
  [147, 117, 239, 143, 157, 312, 161, 612, 512, 804, 411, 527, 170, 511, 421, 667, 764, 621, 301, 106,
   133, 793, 411, 511, 312, 423, 344, 346, 653, 758, 342, 222, 236, 811, 711, 611, 122, 447, 128, 199,
   183, 135, 489, 703, 800, 745, 152, 863, 134, 211, 142, 564, 375, 793, 212, 153, 138, 153, 648, 611,
   151, 649, 318, 143, 117, 756, 119, 141, 717, 113, 112, 146, 162, 660, 693, 261, 362, 354, 251, 641,
   157, 178, 631, 192, 734, 445, 192, 883, 187, 122, 591, 731, 852, 384, 565, 596, 451, 772, 624, 691]

/-- Nepse._get_floorsheet_payload_id: fetch the market status itself, coerce
its id field (147 when the key is absent), index the dummy table (the bare
except around the indexing supplies 147, though dummy_id % 100 is always in
range), derive e and the salt index, authenticate when the held salts are
falsy, and combine.  The company_id parameter is unused by the computation
and kept for fidelity; day is date_obj.day. -/
def get_floorsheet_payload_id (env : Env) (st : SessionState)
    (company_id : Int) (day : Int) : Outcome Int × List Effect :=
  match get_market_status env st with
  | (.err e st1, tr) => (.err e st1, tr)
  | (.ok status st1, tr) =>
    match pyInt ((pyLookup status "id").getD (.int 147)) with
    | .error e => (.err e st1, tr)
    | .ok dummy_id =>
      let val := DUMMY_DATA.getD (dummy_id.emod 100).toNat 147
      let e := val + dummy_id + 2 * day
      let salt_index : Nat := if e.emod 10 < 4 then 1 else 3
      match (if truthySalts st1.salts then
          (Outcome.ok () st1, ([] : List Effect))
        else authenticate env st1) with
      | (.err e2 st2, tr2) => (.err e2 st2, tr ++ tr2)
      | (.ok () st2, tr2) =>
        match st2.salts with
        | Option.none =>
          (.err (.typeError "\x27NoneType\x27 object is not subscriptable")
            st2, tr ++ tr2)
        | some salts =>
          match salts.get? salt_index, salts.get? (salt_index - 1) with
          | some sa, some sb => (.ok (e + sa * day - sb) st2, tr ++ tr2)
          | _, _ =>
            (.err (.indexError "list index out of range") st2, tr ++ tr2)

/-- Nepse.refresh_auth_token: build the payload from the held refresh token,
post it with the auth headers (the header call may itself authenticate when
no token is held), and on a decodable 2xx body update the access token and,
when the respective keys are present, the timestamp and the salts — the
held refresh token is never assigned.  Every exception inside the try
(transport, status, decoding, or one bubbling out of the header call) is
caught, printed and turned into an empty-dict return. -/
def refresh_auth_token (env : Env) (st : SessionState) :
    Outcome Response × List Effect :=
  match get_auth_headers env st with
  | (.err _ st1, tr) => (.ok [] st1, tr)
  | (.ok _ st1, tr) =>
    match env.refreshResult with
    | .error _ => (.ok [] st1, tr ++ [.postRefresh])
    | .ok token_data =>
      let st2 :=
        if token_data ≠ [] ∧ (pyLookup token_data "accessToken").isSome then
          let newAccess :=
            match pyLookup token_data "accessToken" with
            | some (.str s) => some s
            | _ => st1.access_token
          let newStamp :=
            match pyLookup token_data "serverTime" with
            | some (.int ms) => Int.tdiv ms 1000
            | _ => st1.token_timestamp
          let newSalts :=
            match pyLookup token_data "salt" with
            | some (.intList xs) => some xs
            | _ => st1.salts
          SessionState.mk newAccess st1.refresh_token newSalts newStamp
        else st1
      (.ok token_data st2, tr ++ [.postRefresh])

/-- Transform stub used by the concrete fixtures: each function selects a
distinct position of its argument tuple, the shape of stub the spec suggests
for permutation tests. -/
def sampleTransform : Transform :=
  Transform.mk (fun xs => xs.getD 0 0) (fun xs => xs.getD 1 0)
    (fun xs => xs.getD 2 0) (fun xs => xs.getD 3 0) (fun xs => xs.getD 4 0)

/-- A well-formed prove body used by the concrete fixtures; salt1 is a
string to exercise the int coercion. -/
def sampleProve : Response :=
  [("salt1", .str "10"), ("salt2", .int 12), ("salt3", .int 15),
   ("salt4", .int 20), ("salt5", .int 25),
   ("accessToken", .str "ABCDEFGHIJKLMNOPQRSTUVWXYZ0123"),
   ("refreshToken", .str "abcdefghijklmnopqrstuvwxyz0123")]

/-- A market-open body carrying the default id. -/
def sampleMarketStatus : Response :=
  [("id", .int 147), ("isOpen", .str "OPEN")]

/-- Environment whose refresh endpoint fails (transport error, non-2xx or
undecodable body all land in the same modelled error). -/
def envRefreshFail : Env :=
  Env.mk sampleTransform sampleProve sampleMarketStatus (.error ())
    1700000000

/-- A successful refresh body that offers a new refresh token alongside the
new access token, fresh salts and a server time. -/
def refreshBodyFull : Response :=
  [("accessToken", .str "NEWACCESS"), ("refreshToken", .str "NEWREFRESH"),
   ("serverTime", .int 1700000123456), ("salt", .intList [7, 8, 9, 10, 11])]

/-- Environment whose refresh endpoint answers with refreshBodyFull. -/
def envRefreshOk : Env :=
  Env.mk sampleTransform sampleProve sampleMarketStatus (.ok refreshBodyFull)
    1700000000

/-- An authenticated session state used by the concrete fixtures. -/
def sampleAuthedState : SessionState :=
  SessionState.mk (some "OLDACCESS") (some "OLDREFRESH")
    (some [100, 200, 300, 400, 500]) 1690000000

/-- A prove body whose salt1 is not integer-coercible while every other
field is well formed. -/
def badSalt1Response : Response :=
  [("salt1", .str "x"), ("salt2", .int 12), ("salt3", .int 15),
   ("salt4", .int 20), ("salt5", .int 25),
   ("accessToken", .str "ABCDEFGHIJKLMNOPQRSTUVWXYZ0123"),
   ("refreshToken", .str "abcdefghijklmnopqrstuvwxyz0123")]

/-- A prove body whose salt2 is not integer-coercible while every other
field — in particular salt1 — is well formed. -/
def badSalt2Response : Response :=
  [("salt1", .int 11), ("salt2", .str "x"), ("salt3", .int 15),
   ("salt4", .int 20), ("salt5", .int 25),
   ("accessToken", .str "ABCDEFGHIJKLMNOPQRSTUVWXYZ0123"),
   ("refreshToken", .str "abcdefghijklmnopqrstuvwxyz0123")]

/-- Modelled from the spec, section 4.3: the payload-id formula
result = e + salts[salt_index] * day - salts[salt_index - 1], with
e = table[base_id mod 100] + base_id + 2 * day and
salt_index = 1 if e mod 10 < 4 else 3, stated over the same embedded
table.  The lookup defaults here are 0, not the 147 of the implementation
fallback, so agreement with the implementation also certifies that both
lookups are genuine in-range accesses. -/
def payloadIdSpec (base_id day : Int) (salts : List Int) : Int :=
  let e := DUMMY_DATA.getD (base_id.emod 100).toNat 0 + base_id + 2 * day
  let salt_index : Nat := if e.emod 10 < 4 then 1 else 3
  e + (salts.getD salt_index 0) * day - (salts.getD (salt_index - 1) 0)

/- ---------------------------------------------------------------------- -/
/- Slicing lemmas shared by the reassembly claims.                         -/
/- ---------------------------------------------------------------------- -/

theorem sliceIdx_natCast (len a : Nat) : sliceIdx len (a : Int) = min a len := by
  unfold sliceIdx
  rw [if_neg (not_lt.mpr (Int.natCast_nonneg a)), Int.toNat_natCast]

theorem sliceIdx_zero (len : Nat) : sliceIdx len 0 = 0 := by
  unfold sliceIdx
  norm_num

theorem sliceIdx_of_length_le (len : Nat) (i : Int) (h : (len : Int) ≤ i) :
    sliceIdx len i = len := by
  unfold sliceIdx
  have h0 : (0 : Int) ≤ i := le_trans (Int.natCast_nonneg len) h
  rw [if_neg (not_lt.mpr h0), min_eq_right ((Int.le_toNat h0).mpr h)]

theorem drop_min_of_le (t : List Char) (a L : Nat) (h : t.length ≤ L) :
    t.drop (min a L) = t.drop a := by
  rcases le_total a L with h2 | h2
  · rw [min_eq_left h2]
  · rw [min_eq_right h2, List.drop_eq_nil_iff.mpr h, eq_comm,
      List.drop_eq_nil_iff]
    exact le_trans h h2

theorem take_min_length (t : List Char) (b : Nat) :
    t.take (min b t.length) = t.take b := by
  rcases le_total b t.length with h | h
  · rw [min_eq_left h]
  · rw [min_eq_right h, List.take_length, List.take_of_length_le h]

theorem pySlice_natCast (s : List Char) (a b : Nat) :
    pySlice s (a : Int) (b : Int) = (s.take b).drop a := by
  unfold pySlice
  rw [sliceIdx_natCast, sliceIdx_natCast, take_min_length,
    drop_min_of_le _ a s.length (by rw [List.length_take]; omega)]

theorem pySliceFrom_natCast (s : List Char) (a : Nat) :
    pySliceFrom s (a : Int) = s.drop a := by
  unfold pySliceFrom
  rw [sliceIdx_natCast, drop_min_of_le _ a s.length (le_refl _)]

theorem reassemble_natCast (s : List Char) (n l o p q : Nat) :
    reassemble s (n : Int) (l : Int) (o : Int) (p : Int) (q : Int) =
      s.take n ++ (s.take l).drop (n + 1) ++ (s.take o).drop (l + 1) ++
        (s.take p).drop (o + 1) ++ (s.take q).drop (p + 1) ++
        s.drop (q + 1) := by
  have c0 : (0 : Int) = ((0 : Nat) : Int) := by norm_num
  have cn : ((n : Int) + 1) = (((n + 1 : Nat)) : Int) := by push_cast; ring
  have cl : ((l : Int) + 1) = (((l + 1 : Nat)) : Int) := by push_cast; ring
  have co : ((o : Int) + 1) = (((o + 1 : Nat)) : Int) := by push_cast; ring
  have cp : ((p : Int) + 1) = (((p + 1 : Nat)) : Int) := by push_cast; ring
  have cq : ((q : Int) + 1) = (((q + 1 : Nat)) : Int) := by push_cast; ring
  unfold reassemble
  rw [c0, cn, cl, co, cp, cq, pySlice_natCast, pySlice_natCast,
    pySlice_natCast, pySlice_natCast, pySlice_natCast, pySliceFrom_natCast,
    List.drop_zero]

theorem eraseTake (s : List Char) (i m : Nat) (him : i < m) :
    (s.take m).eraseIdx i = s.take i ++ (s.take m).drop (i + 1) := by
  rw [List.eraseIdx_eq_take_drop_succ, List.take_take,
    min_eq_left (le_of_lt him)]

/-- Claim C2, corrected: for strictly increasing in-bounds cut points the
six-segment reassembly equals the original string with exactly the
characters at the five cut indices removed, in index order, so its length
drops by five — not by six as the claim states (there are only five cut
points per token, despite the six segments). -/
theorem c2_reassembly_removes_cut_chars (s : List Char) (n l o p q : Nat)
    (h1 : n < l) (h2 : l < o) (h3 : o < p) (h4 : p < q)
    (h5 : q < s.length) :
    reassemble s (n : Int) (l : Int) (o : Int) (p : Int) (q : Int) =
        ((((s.eraseIdx q).eraseIdx p).eraseIdx o).eraseIdx l).eraseIdx n ∧
      (reassemble s (n : Int) (l : Int) (o : Int) (p : Int)
        (q : Int)).length = s.length - 5 := by
  have e4 : s.eraseIdx q = s.take q ++ s.drop (q + 1) :=
    List.eraseIdx_eq_take_drop_succ s q
  have hbp : p < (s.take q).length := by rw [List.length_take]; omega
  have e3 : (s.eraseIdx q).eraseIdx p =
      s.take p ++ (s.take q).drop (p + 1) ++ s.drop (q + 1) := by
    rw [e4, List.eraseIdx_append_of_lt_length hbp, eraseTake s p q h4]
  have hbo1 : o < (s.take p).length := by rw [List.length_take]; omega
  have hbo2 : o < (s.take p ++ (s.take q).drop (p + 1)).length := by
    simp only [List.length_append, List.length_take, List.length_drop]
    omega
  have e2 : ((s.eraseIdx q).eraseIdx p).eraseIdx o =
      s.take o ++ (s.take p).drop (o + 1) ++ (s.take q).drop (p + 1) ++
        s.drop (q + 1) := by
    rw [e3, List.eraseIdx_append_of_lt_length hbo2,
      List.eraseIdx_append_of_lt_length hbo1, eraseTake s o p h3]
  have hbl1 : l < (s.take o).length := by rw [List.length_take]; omega
  have hbl2 : l < (s.take o ++ (s.take p).drop (o + 1)).length := by
    simp only [List.length_append, List.length_take, List.length_drop]
    omega
  have hbl3 : l < (s.take o ++ (s.take p).drop (o + 1) ++
      (s.take q).drop (p + 1)).length := by
    simp only [List.length_append, List.length_take, List.length_drop]
    omega
  have e1 : (((s.eraseIdx q).eraseIdx p).eraseIdx o).eraseIdx l =
      s.take l ++ (s.take o).drop (l + 1) ++ (s.take p).drop (o + 1) ++
        (s.take q).drop (p + 1) ++ s.drop (q + 1) := by
    rw [e2, List.eraseIdx_append_of_lt_length hbl3,
      List.eraseIdx_append_of_lt_length hbl2,
      List.eraseIdx_append_of_lt_length hbl1, eraseTake s l o h2]
  have hbn1 : n < (s.take l).length := by rw [List.length_take]; omega
  have hbn2 : n < (s.take l ++ (s.take o).drop (l + 1)).length := by
    simp only [List.length_append, List.length_take, List.length_drop]
    omega
  have hbn3 : n < (s.take l ++ (s.take o).drop (l + 1) ++
      (s.take p).drop (o + 1)).length := by
    simp only [List.length_append, List.length_take, List.length_drop]
    omega
  have hbn4 : n < (s.take l ++ (s.take o).drop (l + 1) ++
      (s.take p).drop (o + 1) ++ (s.take q).drop (p + 1)).length := by
    simp only [List.length_append, List.length_take, List.length_drop]
    omega
  have e0 : ((((s.eraseIdx q).eraseIdx p).eraseIdx o).eraseIdx l).eraseIdx n
      = s.take n ++ (s.take l).drop (n + 1) ++ (s.take o).drop (l + 1) ++
        (s.take p).drop (o + 1) ++ (s.take q).drop (p + 1) ++
        s.drop (q + 1) := by
    rw [e1, List.eraseIdx_append_of_lt_length hbn4,
      List.eraseIdx_append_of_lt_length hbn3,
      List.eraseIdx_append_of_lt_length hbn2,
      List.eraseIdx_append_of_lt_length hbn1, eraseTake s n l h1]
  have main : reassemble s (n : Int) (l : Int) (o : Int) (p : Int)
      (q : Int) =
      ((((s.eraseIdx q).eraseIdx p).eraseIdx o).eraseIdx l).eraseIdx n := by
    rw [reassemble_natCast, e0]
  refine ⟨main, ?_⟩
  have L1 : (s.eraseIdx q).length = s.length - 1 :=
    List.length_eraseIdx_of_lt h5
  have L2 : ((s.eraseIdx q).eraseIdx p).length = s.length - 2 := by
    rw [List.length_eraseIdx_of_lt (by rw [L1]; omega), L1]
    omega
  have L3 : (((s.eraseIdx q).eraseIdx p).eraseIdx o).length =
      s.length - 3 := by
    rw [List.length_eraseIdx_of_lt (by rw [L2]; omega), L2]
    omega
  have L4 : ((((s.eraseIdx q).eraseIdx p).eraseIdx o).eraseIdx l).length =
      s.length - 4 := by
    rw [List.length_eraseIdx_of_lt (by rw [L3]; omega), L3]
    omega
  rw [main, List.length_eraseIdx_of_lt (by rw [L4]; omega), L4]
  omega

/-- Claim C2 counterexample: with the strictly increasing in-bounds cut
points 0 < 1 < 2 < 3 < 4 on the six-character string abcdef, the reassembly
keeps one character, i.e. removes five characters, not the six the claim
asserts. -/
theorem c2_counterexample :
    reassemble "abcdef".data 0 1 2 3 4 = "f".data ∧
      (reassemble "abcdef".data 0 1 2 3 4).length =
        "abcdef".data.length - 5 ∧
      (reassemble "abcdef".data 0 1 2 3 4).length ≠
        "abcdef".data.length - 6 := by
  refine ⟨by decide, by decide, by decide⟩

/-- Claim C2 witness: the corrected reassembly law evaluated at a concrete
string and concrete strictly increasing cut points. -/
theorem c2_witness :
    reassemble "abcdefgh".data ((1 : Nat) : Int) ((3 : Nat) : Int)
        ((4 : Nat) : Int) ((6 : Nat) : Int) ((7 : Nat) : Int) =
        (((("abcdefgh".data.eraseIdx 7).eraseIdx 6).eraseIdx
          4).eraseIdx 3).eraseIdx 1 ∧
      (reassemble "abcdefgh".data ((1 : Nat) : Int) ((3 : Nat) : Int)
        ((4 : Nat) : Int) ((6 : Nat) : Int) ((7 : Nat) : Int)).length =
        "abcdefgh".data.length - 5 :=
  c2_reassembly_removes_cut_chars "abcdefgh".data 1 3 4 6 7 (by decide)
    (by decide) (by decide) (by decide) (by decide)

/-- Claim C10: when every cut point is at least the string length, each
middle segment is empty, the first segment is the whole string, and the
reassembled token is the original string unchanged; reassembly is a total
function of arbitrary integer cut points by construction. -/
theorem c10_out_of_range_cuts_identity (s : List Char) (n l o p q : Int)
    (hn : (s.length : Int) ≤ n) (hl : (s.length : Int) ≤ l)
    (ho : (s.length : Int) ≤ o) (hp : (s.length : Int) ≤ p)
    (hq : (s.length : Int) ≤ q) :
    reassemble s n l o p q = s := by
  unfold reassemble pySlice pySliceFrom
  rw [sliceIdx_zero, sliceIdx_of_length_le _ _ hn,
    sliceIdx_of_length_le _ _ hl, sliceIdx_of_length_le _ _ ho,
    sliceIdx_of_length_le _ _ hp, sliceIdx_of_length_le _ _ hq,
    sliceIdx_of_length_le _ _ (by omega : (s.length : Int) ≤ n + 1),
    sliceIdx_of_length_le _ _ (by omega : (s.length : Int) ≤ l + 1),
    sliceIdx_of_length_le _ _ (by omega : (s.length : Int) ≤ o + 1),
    sliceIdx_of_length_le _ _ (by omega : (s.length : Int) ≤ p + 1),
    sliceIdx_of_length_le _ _ (by omega : (s.length : Int) ≤ q + 1)]
  simp

/-- Claim C10 witness: a concrete string with every cut point past its
length reassembles to itself. -/
theorem c10_witness :
    (("abc".data.length : Int) ≤ 5) ∧ reassemble "abc".data 5 7 9 11 13 =
      "abc".data :=
  ⟨by decide, c10_out_of_range_cuts_identity "abc".data 5 7 9 11 13
    (by decide) (by decide) (by decide) (by decide) (by decide)⟩

/-- Helper shared by the descrambler claims: on a response whose salts
extract to (s1..s5) and whose token fields are the strings aT and rT,
parse_token_response succeeds and its two tokens are the reassemblies at
the ten transform values. -/
theorem parse_ok_of_fields (t : Transform) (r : Response)
    (s1 s2 s3 s4 s5 : Int) (aT rT : String)
    (hs : parseSalts r = .ok (s1, s2, s3, s4, s5))
    (ha : getTokenStr r "accessToken" = .ok aT)
    (hr : getTokenStr r "refreshToken" = .ok rT) :
    parse_token_response t r =
      .ok (String.mk (reassemble aT.data (t.cdx [s1, s2, s3, s4, s5])
            (t.rdx [s1, s2, s4, s3, s5]) (t.bdx [s1, s2, s4, s3, s5])
            (t.ndx [s1, s2, s4, s3, s5]) (t.mdx [s1, s2, s4, s3, s5])),
          String.mk (reassemble rT.data (t.cdx [s2, s1, s3, s5, s4])
            (t.rdx [s2, s1, s3, s4, s5]) (t.bdx [s2, s1, s4, s3, s5])
            (t.ndx [s2, s1, s4, s3, s5]) (t.mdx [s2, s1, s4, s3, s5])),
          [s1, s2, s3, s4, s5]) := by
  simp only [parse_token_response, hs, ha, hr]

/-- Claim C1: the ten cut points are computed with exactly the argument
tuples of the claim — for the access token cdx(s1,s2,s3,s4,s5) and
rdx/bdx/ndx/mdx each at (s1,s2,s4,s3,s5); for the refresh token
cdx(s2,s1,s3,s5,s4), rdx(s2,s1,s3,s4,s5) and bdx/ndx/mdx each at
(s2,s1,s4,s3,s5) — and each token is reassembled at those values. -/
theorem c1_cut_point_permutations (t : Transform) (r : Response)
    (s1 s2 s3 s4 s5 : Int) (aT rT : String)
    (hs : parseSalts r = .ok (s1, s2, s3, s4, s5))
    (ha : getTokenStr r "accessToken" = .ok aT)
    (hr : getTokenStr r "refreshToken" = .ok rT) :
    parse_token_response t r =
      .ok (String.mk (reassemble aT.data (t.cdx [s1, s2, s3, s4, s5])
            (t.rdx [s1, s2, s4, s3, s5]) (t.bdx [s1, s2, s4, s3, s5])
            (t.ndx [s1, s2, s4, s3, s5]) (t.mdx [s1, s2, s4, s3, s5])),
          String.mk (reassemble rT.data (t.cdx [s2, s1, s3, s5, s4])
            (t.rdx [s2, s1, s3, s4, s5]) (t.bdx [s2, s1, s4, s3, s5])
            (t.ndx [s2, s1, s4, s3, s5]) (t.mdx [s2, s1, s4, s3, s5])),
          [s1, s2, s3, s4, s5]) :=
  parse_ok_of_fields t r s1 s2 s3 s4 s5 aT rT hs ha hr

/-- Claim C1 witness: the permutation law evaluated on the concrete sample
transform stub and prove body. -/
theorem c1_witness :
    parse_token_response sampleTransform sampleProve =
      .ok (String.mk (reassemble "ABCDEFGHIJKLMNOPQRSTUVWXYZ0123".data
            (sampleTransform.cdx [10, 12, 15, 20, 25])
            (sampleTransform.rdx [10, 12, 20, 15, 25])
            (sampleTransform.bdx [10, 12, 20, 15, 25])
            (sampleTransform.ndx [10, 12, 20, 15, 25])
            (sampleTransform.mdx [10, 12, 20, 15, 25])),
          String.mk (reassemble "abcdefghijklmnopqrstuvwxyz0123".data
            (sampleTransform.cdx [12, 10, 15, 25, 20])
            (sampleTransform.rdx [12, 10, 15, 20, 25])
            (sampleTransform.bdx [12, 10, 20, 15, 25])
            (sampleTransform.ndx [12, 10, 20, 15, 25])
            (sampleTransform.mdx [12, 10, 20, 15, 25])),
          [10, 12, 15, 20, 25]) :=
  c1_cut_point_permutations sampleTransform sampleProve 10 12 15 20 25
    "ABCDEFGHIJKLMNOPQRSTUVWXYZ0123" "abcdefghijklmnopqrstuvwxyz0123"
    rfl rfl rfl

/-- Claim C9: the descrambler is a pure function of the transform module
and the relevant response fields — two responses agreeing on
salt1..salt5, accessToken and refreshToken descramble identically, and in
particular repeated calls on one response agree. -/
theorem c9_descramble_deterministic (t : Transform) (r1 r2 : Response)
    (h1 : pyLookup r1 "salt1" = pyLookup r2 "salt1")
    (h2 : pyLookup r1 "salt2" = pyLookup r2 "salt2")
    (h3 : pyLookup r1 "salt3" = pyLookup r2 "salt3")
    (h4 : pyLookup r1 "salt4" = pyLookup r2 "salt4")
    (h5 : pyLookup r1 "salt5" = pyLookup r2 "salt5")
    (h6 : pyLookup r1 "accessToken" = pyLookup r2 "accessToken")
    (h7 : pyLookup r1 "refreshToken" = pyLookup r2 "refreshToken") :
    parse_token_response t r1 = parse_token_response t r2 := by
  have hs : parseSalts r1 = parseSalts r2 := by
    unfold parseSalts getSaltVal
    rw [h1, h2, h3, h4, h5]
  have ha : getTokenStr r1 "accessToken" = getTokenStr r2 "accessToken" := by
    unfold getTokenStr
    rw [h6]
  have hr : getTokenStr r1 "refreshToken" = getTokenStr r2 "refreshToken" := by
    unfold getTokenStr
    rw [h7]
  unfold parse_token_response
  rw [hs, ha, hr]

/-- Claim C9 witness: a response and the same response extended with an
unrelated extra key descramble to the same result. -/
theorem c9_witness :
    parse_token_response sampleTransform sampleProve =
      parse_token_response sampleTransform
        (sampleProve ++ [("extra", PyVal.int 1)]) :=
  c9_descramble_deterministic sampleTransform sampleProve
    (sampleProve ++ [("extra", PyVal.int 1)]) (by decide) (by decide)
    (by decide) (by decide) (by decide) (by decide) (by decide)

/-- Claim C4, corrected: a salt-extraction failure is wrapped into the one
ValueError of the except block and happens before any transform invocation
(the result is independent of the transform module), and a response with
integer-coercible string salts is accepted with the salts parsed as
integers; but the error carries only what str(e) renders — the field name
for a missing key, the offending literal (not the field) for a
non-coercible value. -/
theorem c4_salt_validation (r : Response) (t t2 : Transform) (e : PyErr)
    (h : parseSalts r = .error e) :
    parse_token_response t r =
        .error (.valueError
          ("Invalid salt data in response: " ++ pyStrOfErr e)) ∧
      parse_token_response t r = parse_token_response t2 r ∧
      (∀ (rG : Response) (tG : Transform) (v1 v2 v3 v4 v5 : Int)
        (aT rT : String),
        parseSalts rG = .ok (v1, v2, v3, v4, v5) →
        getTokenStr rG "accessToken" = .ok aT →
        getTokenStr rG "refreshToken" = .ok rT →
        ∃ pa pr, parse_token_response tG rG =
          .ok (pa, pr, [v1, v2, v3, v4, v5])) := by
  refine ⟨?_, ?_, ?_⟩
  · simp only [parse_token_response, h]
  · simp only [parse_token_response, h]
  · intro rG tG v1 v2 v3 v4 v5 aT rT hs ha hr
    exact ⟨_, _, parse_ok_of_fields tG rG v1 v2 v3 v4 v5 aT rT hs ha hr⟩

/-- Claim C4 counterexample: two responses whose offending salt fields
differ (salt1 in the first, salt2 in the second, each holding the
non-coercible literal x) produce byte-identical errors, so the raised
error does not identify the offending field. -/
theorem c4_counterexample :
    getSaltVal badSalt1Response "salt1" =
        .error (.valueError
          "invalid literal for int() with base 10: \x27x\x27") ∧
      getSaltVal badSalt2Response "salt1" = .ok 11 ∧
      getSaltVal badSalt2Response "salt2" =
        .error (.valueError
          "invalid literal for int() with base 10: \x27x\x27") ∧
      parse_token_response sampleTransform badSalt1Response =
        parse_token_response sampleTransform badSalt2Response := by
  refine ⟨rfl, rfl, rfl, rfl⟩

/-- Claim C4 witness: the corrected validation law at concrete inputs — a
non-coercible salt1 yields the wrapped ValueError independently of the
transform stub, and the sample body with the coercible string salt "10" is
accepted with salts parsed as integers. -/
theorem c4_witness :
    parse_token_response sampleTransform badSalt1Response =
        .error (.valueError
          ("Invalid salt data in response: " ++
            "invalid literal for int() with base 10: \x27x\x27")) ∧
      (∃ pa pr, parse_token_response sampleTransform sampleProve =
        .ok (pa, pr, [10, 12, 15, 20, 25])) := by
  have h := c4_salt_validation badSalt1Response sampleTransform
    sampleTransform
    (.valueError "invalid literal for int() with base 10: \x27x\x27")
    rfl
  exact ⟨h.1, h.2.2 sampleProve sampleTransform 10 12 15 20 25
    "ABCDEFGHIJKLMNOPQRSTUVWXYZ0123" "abcdefghijklmnopqrstuvwxyz0123"
    rfl rfl rfl⟩

/- ---------------------------------------------------------------------- -/
/- Session state machine lemmas.                                           -/
/- ---------------------------------------------------------------------- -/

theorem truthyStr_some (s : String) (h : s ≠ "") :
    truthyStr (some s) = true := by
  unfold truthyStr
  rw [Bool.not_eq_true']
  exact Bool.eq_false_iff.mpr (fun hc => h ((String.isEmpty_iff s).mp hc))

theorem get_auth_headers_of_truthy (env : Env) (st : SessionState)
    (tok : String) (hTok : st.access_token = some tok) (hNe : tok ≠ "") :
    get_auth_headers env st = (.ok (mkAuthHeaders (some tok)) st, []) := by
  simp [get_auth_headers, hTok, truthyStr_some tok hNe]

theorem get_auth_headers_after_auth (env : Env) (st : SessionState)
    (aT rT : String) (ss : List Int)
    (hNoTok : st.access_token = Option.none)
    (hParse : parse_token_response env.transform env.proveResponse =
      .ok (aT, rT, ss)) :
    get_auth_headers env st =
      (.ok (mkAuthHeaders (some aT))
        (SessionState.mk (some aT) (some rT) (some ss) env.now),
       [.auth]) := by
  simp [get_auth_headers, hNoTok, truthyStr, authenticate, hParse]

/-- Claim C8: on a session holding no access token, _get_auth_headers
triggers exactly one authenticate call before returning, an immediately
repeated call on the resulting state triggers no further authenticate
call, and the returned header map carries Authorization: Salter followed
by the held access token. -/
theorem c8_lazy_authentication (env : Env) (st : SessionState)
    (aT rT : String) (ss : List Int)
    (hNoTok : st.access_token = Option.none)
    (hParse : parse_token_response env.transform env.proveResponse =
      .ok (aT, rT, ss))
    (hNe : aT ≠ "") :
    get_auth_headers env st =
        (.ok (mkAuthHeaders (some aT))
          (SessionState.mk (some aT) (some rT) (some ss) env.now),
         [.auth]) ∧
      get_auth_headers env
          (SessionState.mk (some aT) (some rT) (some ss) env.now) =
        (.ok (mkAuthHeaders (some aT))
          (SessionState.mk (some aT) (some rT) (some ss) env.now), []) ∧
      List.lookup "Authorization" (mkAuthHeaders (some aT)) =
        some ("Salter " ++ aT) := by
  refine ⟨get_auth_headers_after_auth env st aT rT ss hNoTok hParse, ?_, ?_⟩
  · exact get_auth_headers_of_truthy env _ aT rfl hNe
  · simp [mkAuthHeaders, pyShowOptStr]

/-- Claim C8 witness: the lazy-authentication law on the concrete fixture
environment starting from the fresh unauthenticated state. -/
theorem c8_witness :
    get_auth_headers envRefreshFail initialState =
        (.ok (mkAuthHeaders (some (String.mk (reassemble
            "ABCDEFGHIJKLMNOPQRSTUVWXYZ0123".data 10 12 20 15 25))))
          (SessionState.mk
            (some (String.mk (reassemble
              "ABCDEFGHIJKLMNOPQRSTUVWXYZ0123".data 10 12 20 15 25)))
            (some (String.mk (reassemble
              "abcdefghijklmnopqrstuvwxyz0123".data 12 10 20 15 25)))
            (some [10, 12, 15, 20, 25]) 1700000000),
         [.auth]) ∧
      get_auth_headers envRefreshFail
          (SessionState.mk
            (some (String.mk (reassemble
              "ABCDEFGHIJKLMNOPQRSTUVWXYZ0123".data 10 12 20 15 25)))
            (some (String.mk (reassemble
              "abcdefghijklmnopqrstuvwxyz0123".data 12 10 20 15 25)))
            (some [10, 12, 15, 20, 25]) 1700000000) =
        (.ok (mkAuthHeaders (some (String.mk (reassemble
            "ABCDEFGHIJKLMNOPQRSTUVWXYZ0123".data 10 12 20 15 25))))
          (SessionState.mk
            (some (String.mk (reassemble
              "ABCDEFGHIJKLMNOPQRSTUVWXYZ0123".data 10 12 20 15 25)))
            (some (String.mk (reassemble
              "abcdefghijklmnopqrstuvwxyz0123".data 12 10 20 15 25)))
            (some [10, 12, 15, 20, 25]) 1700000000), []) ∧
      List.lookup "Authorization"
          (mkAuthHeaders (some (String.mk (reassemble
            "ABCDEFGHIJKLMNOPQRSTUVWXYZ0123".data 10 12 20 15 25)))) =
        some ("Salter " ++ String.mk (reassemble
          "ABCDEFGHIJKLMNOPQRSTUVWXYZ0123".data 10 12 20 15 25)) :=
  c8_lazy_authentication envRefreshFail initialState
    (String.mk (reassemble "ABCDEFGHIJKLMNOPQRSTUVWXYZ0123".data
      10 12 20 15 25))
    (String.mk (reassemble "abcdefghijklmnopqrstuvwxyz0123".data
      12 10 20 15 25))
    [10, 12, 15, 20, 25] rfl rfl (by decide)

theorem getD_eq_of_lt : ∀ (xs : List Int) (i : Nat) (d1 d2 : Int),
    i < xs.length → xs.getD i d1 = xs.getD i d2
  | [], i, _, _, h => absurd h (by simp)
  | _ :: _, 0, _, _, _ => rfl
  | _ :: xs, i + 1, d1, d2, h => by
    simpa using getD_eq_of_lt xs i d1 d2 (by simpa using h)

theorem truthySalts_cons (x : Int) (xs : List Int) :
    truthySalts (some (x :: xs)) = true := by
  simp [truthySalts]

theorem get_market_status_of_truthy (env : Env) (st : SessionState)
    (tok : String) (hTok : st.access_token = some tok) (hNe : tok ≠ "") :
    get_market_status env st =
      (.ok env.marketStatus st, [.fetchMarketStatus]) := by
  simp [get_market_status, get_auth_headers_of_truthy env st tok hTok hNe]

/-- Claim C3: for every fetched base id, day of month in 1..31 and
5-tuple of held salts, the payload id equals
e + salts[salt_index] * day - salts[salt_index - 1] with
e = table[base_id mod 100] + base_id + 2 * day and
salt_index = 1 if e mod 10 < 4 else 3, the formula of the spec stated by
payloadIdSpec; the session state is untouched. -/
theorem c3_payload_id_formula (env : Env) (st : SessionState)
    (base_id day cid : Int) (s1 s2 s3 s4 s5 : Int) (tok : String)
    (hTok : st.access_token = some tok) (hNe : tok ≠ "")
    (hSalts : st.salts = some [s1, s2, s3, s4, s5])
    (hId : pyInt ((pyLookup env.marketStatus "id").getD (.int 147)) =
      .ok base_id)
    (hDay1 : 1 ≤ day) (hDay2 : day ≤ 31) :
    get_floorsheet_payload_id env st cid day =
      (.ok (payloadIdSpec base_id day [s1, s2, s3, s4, s5]) st,
       [.fetchMarketStatus]) := by
  have hidx : (base_id.emod 100).toNat < 100 := by
    have h1 : 0 ≤ base_id.emod 100 := Int.emod_nonneg base_id (by norm_num)
    have h2 : base_id.emod 100 < 100 :=
      Int.emod_lt_of_pos base_id (by norm_num)
    omega
  have hlen : DUMMY_DATA.length = 100 := rfl
  have hTable : DUMMY_DATA.getD (base_id.emod 100).toNat 147 =
      DUMMY_DATA.getD (base_id.emod 100).toNat 0 :=
    getD_eq_of_lt DUMMY_DATA _ 147 0 (by rw [hlen]; exact hidx)
  unfold get_floorsheet_payload_id
  rw [get_market_status_of_truthy env st tok hTok hNe]
  simp only [hId, hSalts, truthySalts_cons]
  simp only [payloadIdSpec]
  rw [hTable]
  generalize (DUMMY_DATA.getD (base_id.emod 100).toNat 0 + base_id +
    2 * day) = E
  by_cases hc : E.emod 10 < 4
  · simp [hc, hSalts]
  · simp [hc, hSalts]

/-- Claim C3 witness: the payload-id formula at base id 147, day 12 and
salts (100, 200, 300, 400, 500); the spec formula evaluates to 5534 there
(table[47] = 863, e = 1034, e mod 10 = 4 so salt_index = 3, and
1034 + 400 * 12 - 300 = 5534). -/
theorem c3_witness :
    get_floorsheet_payload_id envRefreshFail sampleAuthedState 0 12 =
        (.ok (payloadIdSpec 147 12 [100, 200, 300, 400, 500])
          sampleAuthedState, [.fetchMarketStatus]) ∧
      payloadIdSpec 147 12 [100, 200, 300, 400, 500] = 5534 :=
  ⟨c3_payload_id_formula envRefreshFail sampleAuthedState 147 12 0
    100 200 300 400 500 "OLDACCESS" rfl (by decide) rfl rfl (by decide)
    (by decide), by decide⟩

/-- Claim C5, corrected: the signer fetches base_id itself through
get_market_status, and on a session whose salts are unset it triggers one
internal authenticate call and completes successfully with the freshly
parsed salts — it does not fail with a precondition error. -/
theorem c5_signer_authenticates (env : Env) (st : SessionState)
    (cid day : Int) (tok aT rT : String) (s1 s2 s3 s4 s5 base_id : Int)
    (hTok : st.access_token = some tok) (hNe : tok ≠ "")
    (hSalts : st.salts = Option.none)
    (hParse : parse_token_response env.transform env.proveResponse =
      .ok (aT, rT, [s1, s2, s3, s4, s5]))
    (hId : pyInt ((pyLookup env.marketStatus "id").getD (.int 147)) =
      .ok base_id) :
    get_floorsheet_payload_id env st cid day =
      (.ok (payloadIdSpec base_id day [s1, s2, s3, s4, s5])
        (SessionState.mk (some aT) (some rT) (some [s1, s2, s3, s4, s5])
          env.now),
       [.fetchMarketStatus, .auth]) := by
  have hidx : (base_id.emod 100).toNat < 100 := by
    have h1 : 0 ≤ base_id.emod 100 := Int.emod_nonneg base_id (by norm_num)
    have h2 : base_id.emod 100 < 100 :=
      Int.emod_lt_of_pos base_id (by norm_num)
    omega
  have hlen : DUMMY_DATA.length = 100 := rfl
  have hTable : DUMMY_DATA.getD (base_id.emod 100).toNat 147 =
      DUMMY_DATA.getD (base_id.emod 100).toNat 0 :=
    getD_eq_of_lt DUMMY_DATA _ 147 0 (by rw [hlen]; exact hidx)
  unfold get_floorsheet_payload_id
  rw [get_market_status_of_truthy env st tok hTok hNe]
  simp only [hId, hSalts, truthySalts]
  unfold authenticate
  simp only [hParse]
  simp only [payloadIdSpec]
  rw [hTable]
  generalize (DUMMY_DATA.getD (base_id.emod 100).toNat 0 + base_id +
    2 * day) = E
  by_cases hc : E.emod 10 < 4
  · simp [hc]
  · simp [hc]

/-- Claim C5 counterexample: on a fresh, never-authenticated session the
signer emits a market-status fetch (so it does not receive base_id from
the caller), emits an authenticate call, and returns a value rather than
failing with a precondition error. -/
theorem c5_counterexample :
    Effect.fetchMarketStatus ∈
        (get_floorsheet_payload_id envRefreshFail initialState 0 12).2 ∧
      Effect.auth ∈
        (get_floorsheet_payload_id envRefreshFail initialState 0 12).2 ∧
      (get_floorsheet_payload_id envRefreshFail initialState 0 12).1.isErr
        = false := by
  refine ⟨by decide, by decide, by decide⟩

/-- Claim C5 witness: the corrected claim at the concrete fixture, a
session with an access token but unset salts. -/
theorem c5_witness :
    get_floorsheet_payload_id envRefreshFail
        (SessionState.mk (some "TOK") Option.none Option.none 0) 0 12 =
      (.ok (payloadIdSpec 147 12 [10, 12, 15, 20, 25])
        (SessionState.mk
          (some (String.mk (reassemble
            "ABCDEFGHIJKLMNOPQRSTUVWXYZ0123".data 10 12 20 15 25)))
          (some (String.mk (reassemble
            "abcdefghijklmnopqrstuvwxyz0123".data 12 10 20 15 25)))
          (some [10, 12, 15, 20, 25]) 1700000000),
       [.fetchMarketStatus, .auth]) :=
  c5_signer_authenticates envRefreshFail
    (SessionState.mk (some "TOK") Option.none Option.none 0) 0 12 "TOK"
    (String.mk (reassemble "ABCDEFGHIJKLMNOPQRSTUVWXYZ0123".data
      10 12 20 15 25))
    (String.mk (reassemble "abcdefghijklmnopqrstuvwxyz0123".data
      12 10 20 15 25))
    10 12 15 20 25 147 rfl (by decide) rfl rfl rfl

/-- Claim C6, corrected: on a session holding an access token, a failing
refresh (transport error, non-2xx status or undecodable body) leaves the
whole session state — access token, refresh token, salts and timestamp —
unchanged and performs no authenticate call, but the error is caught and
swallowed: the call returns an empty dict instead of surfacing a distinct
error kind. -/
theorem c6_refresh_failure_swallowed (env : Env) (st : SessionState)
    (tok : String)
    (hTok : st.access_token = some tok) (hNe : tok ≠ "")
    (hFail : env.refreshResult = .error ()) :
    refresh_auth_token env st = (.ok [] st, [.postRefresh]) := by
  simp [refresh_auth_token, get_auth_headers_of_truthy env st tok hTok hNe,
    hFail]

/-- Claim C6 counterexample: on the concrete failing-refresh environment
the call does not surface any error — it returns ok with an empty dict —
contradicting the claim that the failure is surfaced as a distinct error
kind rather than swallowed (the state-preservation half does hold). -/
theorem c6_counterexample :
    refresh_auth_token envRefreshFail sampleAuthedState =
        (.ok [] sampleAuthedState, [.postRefresh]) ∧
      (refresh_auth_token envRefreshFail sampleAuthedState).1.isErr =
        false := by
  refine ⟨rfl, rfl⟩

/-- Claim C6 witness: the corrected failing-refresh law at the concrete
fixture. -/
theorem c6_witness :
    refresh_auth_token envRefreshFail sampleAuthedState =
      (.ok [] sampleAuthedState, [.postRefresh]) :=
  c6_refresh_failure_swallowed envRefreshFail sampleAuthedState
    "OLDACCESS" rfl (by decide) rfl

/-- Claim C7, corrected: a successful refresh never modifies the stored
refresh token, even when the response provides a new one; when the body is
nonempty and contains accessToken, the access token is replaced by the
string the body carries and the salts are replaced exactly when the body
carries a salt array; otherwise the state is wholly unchanged. -/
theorem c7_refresh_updates (env : Env) (st : SessionState)
    (tok : String) (body : Response)
    (hTok : st.access_token = some tok) (hNe : tok ≠ "")
    (hOk : env.refreshResult = .ok body) :
    ∃ st2, refresh_auth_token env st = (.ok body st2, [.postRefresh]) ∧
      st2.refresh_token = st.refresh_token ∧
      (¬(body ≠ [] ∧ (pyLookup body "accessToken").isSome) → st2 = st) ∧
      (∀ aNew, body ≠ [] →
        pyLookup body "accessToken" = some (.str aNew) →
        st2.access_token = some aNew) ∧
      (pyLookup body "salt" = Option.none → st2.salts = st.salts) ∧
      (∀ xs, body ≠ [] → (pyLookup body "accessToken").isSome →
        pyLookup body "salt" = some (.intList xs) →
        st2.salts = some xs) := by
  have hHdr := get_auth_headers_of_truthy env st tok hTok hNe
  by_cases hg : body ≠ [] ∧ (pyLookup body "accessToken").isSome
  · obtain ⟨hne, hsome⟩ := hg
    refine ⟨SessionState.mk
      (match pyLookup body "accessToken" with
        | some (.str s) => some s
        | _ => st.access_token)
      st.refresh_token
      (match pyLookup body "salt" with
        | some (.intList xs) => some xs
        | _ => st.salts)
      (match pyLookup body "serverTime" with
        | some (.int ms) => Int.tdiv ms 1000
        | _ => st.token_timestamp),
      ?_, rfl, ?_, ?_, ?_, ?_⟩
    · simp [refresh_auth_token, hHdr, hOk, hne, hsome]
    · intro hng
      exact absurd ⟨hne, hsome⟩ hng
    · intro aNew _ hlook
      simp [hlook]
    · intro hnone
      simp [hnone]
    · intro xs _ _ hlook
      simp [hlook]
  · refine ⟨st, ?_, rfl, fun _ => rfl, ?_, fun _ => rfl, ?_⟩
    · simp only [refresh_auth_token, hHdr, hOk]
      rw [if_neg hg]
      simp
    · intro aNew hne hlook
      exact absurd ⟨hne, by rw [hlook]; rfl⟩ hg
    · intro xs hne hsome _
      exact absurd ⟨hne, hsome⟩ hg

/-- Claim C7 counterexample: the concrete refresh body offers a new
refresh token NEWREFRESH, yet after the successful refresh the session
still holds OLDREFRESH — the code never assigns the stored refresh token
(while access token, salts and timestamp are updated from the body). -/
theorem c7_counterexample :
    pyLookup refreshBodyFull "refreshToken" =
        some (.str "NEWREFRESH") ∧
      sampleAuthedState.refresh_token = some "OLDREFRESH" ∧
      ((refresh_auth_token envRefreshOk sampleAuthedState).1).state =
        SessionState.mk (some "NEWACCESS") (some "OLDREFRESH")
          (some [7, 8, 9, 10, 11]) 1700000123 := by
  refine ⟨rfl, rfl, rfl⟩

/-- Claim C7 witness: the corrected refresh-update law applied at the
concrete fixture — the stored refresh token is unchanged. -/
theorem c7_witness :
    ((refresh_auth_token envRefreshOk
        sampleAuthedState).1).state.refresh_token =
      sampleAuthedState.refresh_token := by
  obtain ⟨st2, hEq, hRef, -, -, -, -⟩ :=
    c7_refresh_updates envRefreshOk sampleAuthedState "OLDACCESS"
      refreshBodyFull rfl (by decide) rfl
  rw [hEq]
  exact hRef

end Nepse
